import Mathlib

/-!
Verification of the container-pool / script-execution core of the
chat-app-integration-agents repository against its natural-language
specification.

The TypeScript sources are shallowly embedded.  Strings are handled as
`List Char`; each concrete regular expression of the source is embedded
as an explicit matcher that mirrors the pattern character class by
character class (JavaScript semantics: leftmost match, greedy or lazy
quantifiers as written in the pattern, `i`-flag as case folding).
Stateful classes become explicit state-passing functions, and external
effects (the container runtime, the executor, clocks) are inputs.
-/

namespace ChatApp

namespace JsStr

/-- The double-quote character. -/
def dq : Char := Char.ofNat 34

/-- The single-quote character. -/
def sq : Char := Char.ofNat 39

/-- ASCII part of the JavaScript whitespace class used by the embedded
regular expressions. -/
def isWs (c : Char) : Bool :=
  c == ' ' || c == '\t' || c == '\n' || c == '\r' || c == Char.ofNat 11 || c == Char.ofNat 12

/-- JavaScript regex word character (for word boundaries). -/
def isWordChar (c : Char) : Bool :=
  c.isAlphanum || c == '_'

/-- JavaScript line terminators (which the regex dot never matches). -/
def isLineTerm (c : Char) : Bool :=
  c == '\n' || c == '\r' || c == Char.ofNat 0x2028 || c == Char.ofNat 0x2029

/-- `String.prototype.includes` on character lists. -/
def containsSeq (pat : List Char) : List Char → Bool
  | [] => pat.isEmpty
  | c :: t => pat.isPrefixOf (c :: t) || containsSeq pat t

/-- Case-insensitive literal match: returns the matched original text and
the remaining input. -/
def prefixCI : List Char → List Char → Option (List Char × List Char)
  | [], s => some ([], s)
  | _ :: _, [] => none
  | p :: ps, c :: cs =>
    if p.toLower == c.toLower then
      match prefixCI ps cs with
      | some (m, r) => some (c :: m, r)
      | none => none
    else none

/-- Worker for `splitOnSeq` (fuel-based recursion; the fuel is an upper
bound on the number of consumed characters). -/
def splitGo (sep : List Char) : Nat → List Char → List Char → List (List Char)
  | 0, cur, _ => [cur.reverse]
  | _ + 1, cur, [] => [cur.reverse]
  | fuel + 1, cur, c :: t =>
    if sep.isPrefixOf (c :: t) && !sep.isEmpty then
      cur.reverse :: splitGo sep fuel [] ((c :: t).drop sep.length)
    else
      splitGo sep fuel (c :: cur) t

/-- `String.prototype.split` with a non-empty literal separator. -/
def splitOnSeq (sep s : List Char) : List (List Char) :=
  splitGo sep (s.length + 1) [] s

/-- `String.prototype.trim` (ASCII whitespace). -/
def trimChars (s : List Char) : List Char :=
  ((s.dropWhile isWs).reverse.dropWhile isWs).reverse

/-- `String.prototype.replace` with a literal (non-regex) search value:
replaces the first occurrence only. -/
def replaceFirstSeq (pat repl : List Char) : List Char → List Char
  | [] => if pat.isEmpty then repl else []
  | c :: t =>
    if pat.isPrefixOf (c :: t) then repl ++ (c :: t).drop pat.length
    else c :: replaceFirstSeq pat repl t

/-- Result of a successful match at the current scan position: the text
to emit in place of the match, the last character the match consumed
(used for word-boundary tracking), and the remaining input. -/
structure MRes where
  repl : List Char
  lastC : Option Char
  rest : List Char

/-- Worker for `replaceGlobal`: left-to-right scan, on a match emit the
replacement and resume after the match (JavaScript `g`-flag semantics;
all embedded matchers consume at least one character). -/
def replaceGlobalGo (m : Option Char → List Char → Option MRes) :
    Nat → Option Char → List Char → List Char
  | 0, _, s => s
  | fuel + 1, prev, s =>
    match m prev s with
    | some r => r.repl ++ replaceGlobalGo m fuel r.lastC r.rest
    | none =>
      match s with
      | [] => []
      | c :: t => c :: replaceGlobalGo m fuel (some c) t

/-- `String.prototype.replace` with a `g`-flagged regex, the regex being
given as a positional matcher. -/
def replaceGlobal (m : Option Char → List Char → Option MRes) (s : List Char) : List Char :=
  replaceGlobalGo m (s.length + 1) none s

/-- Does any suffix of the input satisfy the predicate?  (Existence of a
regex match at some start position.) -/
def anyTailB (p : List Char → Bool) : List Char → Bool
  | [] => p []
  | c :: t => p (c :: t) || anyTailB p t

/-- `String.prototype.startsWith`, on the character lists. -/
def sStartsWith (s pre : String) : Bool :=
  pre.data.isPrefixOf s.data

/-- `String.prototype.endsWith`, on the character lists. -/
def sEndsWith (s suf : String) : Bool :=
  suf.data.isSuffixOf s.data

/-- Drop the first characters of a string. -/
def sDrop (s : String) (n : Nat) : String :=
  ⟨s.data.drop n⟩

/-- String length as character count. -/
def sLength (s : String) : Nat :=
  s.data.length

/-- Decidable equality of `Except`, used to state evaluation results. -/
def exceptDecEq {e a : Type} [DecidableEq e] [DecidableEq a] : DecidableEq (Except e a)
  | Except.ok x, Except.ok y =>
    if h : x = y then Decidable.isTrue (by rw [h])
    else Decidable.isFalse (by intro hh; cases hh; exact h rfl)
  | Except.ok _, Except.error _ => Decidable.isFalse (by intro hh; cases hh)
  | Except.error _, Except.ok _ => Decidable.isFalse (by intro hh; cases hh)
  | Except.error x, Except.error y =>
    if h : x = y then Decidable.isTrue (by rw [h])
    else Decidable.isFalse (by intro hh; cases hh; exact h rfl)

instance {e a : Type} [DecidableEq e] [DecidableEq a] : DecidableEq (Except e a) :=
  exceptDecEq

end JsStr

/-!
## `src/apps/core/src/utils/security.ts`

`maskSensitiveData` and `scanScriptForVulnerabilities`, embedded from
the source file.
-/

namespace Security

open JsStr

/-- The default `sensitiveKeys` argument of `maskSensitiveData`. -/
def sensitiveKeys : List String :=
  ["license_key", "api_key", "token", "password", "secret"]

/-- Character class `["'=:]` of the key-value masking pattern. -/
def kvClass (c : Char) : Bool :=
  c == dq || c == sq || c == '=' || c == ':'

/-- Value characters of the key-value pattern: complement class
following the source pattern. -/
def kvValueChar (c : Char) : Bool :=
  !(isWs c) && c != dq && c != sq

/-- Trailing group class of the key-value pattern. -/
def kvG2 (c : Char) : Bool :=
  c == sq || c == dq || isWs c

/-- One greedy attempt of the key-value pattern with a fixed repetition
count for the class following the key; mirrors the source pattern with
replacement string permuting in the captured groups around the mask. -/
def kvTryClass (mk : List Char) (s1 : List Char) (n : Nat) : Option MRes :=
  let cls := s1.take n
  if cls.length == n && cls.all kvClass then
    let s2 := s1.drop n
    let v := s2.takeWhile kvValueChar
    let s3 := s2.dropWhile kvValueChar
    if v.isEmpty then none
    else
      match s3 with
      | [] => some ⟨mk ++ cls ++ "***".data, v.getLast?, []⟩
      | c :: t =>
        if kvG2 c then some ⟨mk ++ cls ++ "***".data ++ [c], some c, t⟩ else none
  else none

/-- Matcher at a position for the per-key masking pattern of the source
(`gi` flags, so the key is matched case-insensitively); greedy from
three class characters down to one. -/
def kvMatchAt (key : List Char) (_prev : Option Char) (s : List Char) : Option MRes :=
  match prefixCI key s with
  | none => none
  | some (mk, s1) =>
    match kvTryClass mk s1 3 with
    | some r => some r
    | none =>
      match kvTryClass mk s1 2 with
      | some r => some r
      | none => kvTryClass mk s1 1

/-- Tail of the export-masking pattern after `set`/`export` has been
matched. -/
def exTail (key : List Char) (mkPre : List Char) (s1 : List Char) : Option MRes :=
  let ws1 := s1.takeWhile isWs
  let s2 := s1.dropWhile isWs
  if ws1.isEmpty then none
  else
    match prefixCI key s2 with
    | none => none
    | some (mkKey, s3) =>
      let ws2 := s3.takeWhile isWs
      let s4 := s3.dropWhile isWs
      match s4 with
      | [] => none
      | c :: s5 =>
        if c == '=' || c == ':' then
          let ws3 := s5.takeWhile isWs
          let s6 := s5.dropWhile isWs
          let v := s6.takeWhile (fun x => !(isWs x) && x != ';')
          let s7 := s6.dropWhile (fun x => !(isWs x) && x != ';')
          if v.isEmpty then none
          else
            let g1 := mkPre ++ ws1 ++ mkKey ++ ws2 ++ [c] ++ ws3
            match s7 with
            | [] => some ⟨g1 ++ "***".data, v.getLast?, []⟩
            | d :: t =>
              if d == ';' || d == sq || d == dq || isWs d then
                some ⟨g1 ++ "***".data ++ [d], some d, t⟩
              else none
        else none

/-- Matcher for the per-key export-masking pattern, including the word
boundary before `set`/`export`. -/
def exMatchAt (key : List Char) (prev : Option Char) (s : List Char) : Option MRes :=
  let boundaryOk :=
    match prev with
    | none => true
    | some p => !(isWordChar p)
  if !boundaryOk then none
  else
    match prefixCI "set".data s with
    | some (mk, s1) => exTail key mk s1
    | none =>
      match prefixCI "export".data s with
      | some (mk, s1) => exTail key mk s1
      | none => none

/-- `maskSensitiveData` from `src/apps/core/src/utils/security.ts`: for
each sensitive key, globally apply the key-value pattern and then the
export pattern. -/
def maskSensitiveDataL (text : List Char) : List Char :=
  sensitiveKeys.foldl
    (fun acc key =>
      let acc1 := replaceGlobal (kvMatchAt key.data) acc
      replaceGlobal (exMatchAt key.data) acc1)
    text

/-- String-level wrapper for `maskSensitiveDataL`. -/
def maskSensitiveData (text : String) : String :=
  ⟨maskSensitiveDataL text.data⟩

/-- Issue severities of the vulnerability scanner. -/
inductive Severity where
  | low
  | medium
  | high
  | critical
deriving DecidableEq, BEq

/-- One finding of the vulnerability scanner. -/
structure Issue where
  severity : Severity
  message : String
deriving DecidableEq, BEq

/-- Return type of `scanScriptForVulnerabilities`. -/
structure ScanResult where
  valid : Bool
  issues : List Issue
deriving DecidableEq, BEq

/-- Continuation of the `rm` pattern after `rm` and whitespace: one flag
alternative followed by whitespace and a slash. -/
def rmFlagTail (r1 : List Char) (flag : String) : Bool :=
  flag.data.isPrefixOf r1 &&
    (let r2 := r1.drop flag.length
     let ws2 := r2.takeWhile isWs
     let r3 := r2.dropWhile isWs
     !ws2.isEmpty && r3.head? == some '/')

/-- Match of the destructive-remove pattern starting at this position. -/
def rmAt : List Char → Bool
  | 'r' :: 'm' :: rest =>
    (let ws1 := rest.takeWhile isWs
     let r1 := rest.dropWhile isWs
     !ws1.isEmpty && (["-r", "-f", "--force", "--recursive"].any (rmFlagTail r1)))
  | _ => false

/-- Test of the destructive-remove pattern. -/
def rmPatTest (s : List Char) : Bool :=
  anyTailB rmAt s

/-- Check, at one split position of the dot-star, for whitespace
followed by the block-device target of the `dd` pattern. -/
def ddOfCheck (s : List Char) : Bool :=
  let ws := s.takeWhile isWs
  let r := s.dropWhile isWs
  !ws.isEmpty && "of=/dev/".data.isPrefixOf r &&
    (match (r.drop 8).head? with
     | some c => c.isLower
     | none => false)

/-- Scan the region covered by the dot-star of the `dd` pattern (the dot
does not cross line terminators). -/
def ddScan : List Char → Bool
  | [] => false
  | c :: t => ddOfCheck (c :: t) || (!(isLineTerm c) && ddScan t)

/-- Match of the block-device-write pattern starting at this position. -/
def ddAt : List Char → Bool
  | 'd' :: 'd' :: rest =>
    (let ws1 := rest.takeWhile isWs
     let r1 := rest.dropWhile isWs
     !ws1.isEmpty && "if=".data.isPrefixOf r1 && ddScan (r1.drop 3))
  | _ => false

/-- Test of the block-device-write pattern. -/
def ddPatTest (s : List Char) : Bool :=
  anyTailB ddAt s

/-- Test of the fork-bomb pattern.  As a JavaScript regex the source
pattern parses as a top-level alternation of two literals (the braces
are literal because they do not form a quantifier). -/
def forkPatTest (s : List Char) : Bool :=
  containsSeq ":()\x7b :".data s || containsSeq ":& \x7d;:".data s

/-- After the pipe character: optional whitespace then `sh`. -/
def pipeAfter (t : List Char) : Bool :=
  "sh".data.isPrefixOf (t.dropWhile isWs)

/-- Scan for a pipe character preceded by at least one non-line-break
character (the dot-plus of the piping pattern). -/
def pipeScan : Nat → List Char → Bool
  | _, [] => false
  | n, c :: t =>
    if isLineTerm c then false
    else (c == '|' && decide (1 ≤ n) && pipeAfter t) || pipeScan (n + 1) t

/-- Match of a download-piped-to-shell pattern starting at this
position. -/
def pipeAt (tool : String) (s : List Char) : Bool :=
  tool.data.isPrefixOf s && pipeScan 0 (s.drop tool.length)

/-- Test of a download-piped-to-shell pattern. -/
def pipePatTest (tool : String) (s : List Char) : Bool :=
  anyTailB (pipeAt tool) s

/-- Test of the 40-character token credential pattern. -/
def cred40Test (s : List Char) : Bool :=
  anyTailB (fun t => (t.take 40).length == 40 && (t.take 40).all Char.isAlphanum) s

/-- Match of the password credential pattern for one keyword
alternative, including the negative lookahead for a pre-masked value. -/
def pwdKwAt (kw : String) (s : List Char) : Bool :=
  kw.data.isPrefixOf s &&
    (match s.drop kw.length with
     | c :: d :: rest =>
       c == '=' && (d == dq || d == sq) &&
         !("***".data.isPrefixOf rest) &&
         (rest.take 4).length == 4 && (rest.take 4).all (fun x => x != dq && x != sq)
     | _ => false)

/-- Test of the password credential pattern. -/
def pwdPatTest (s : List Char) : Bool :=
  anyTailB (fun t => ["password", "passwd", "pwd"].any (fun k => pwdKwAt k t)) s

/-- `scanScriptForVulnerabilities` from
`src/apps/core/src/utils/security.ts`: collect pattern findings in
source order; the script is valid exactly when no critical issue was
found. -/
def scanScriptForVulnerabilities (script : String) : ScanResult :=
  let s := script.data
  let dangerous : List Issue :=
    (if rmPatTest s then
      [⟨Severity.critical, "Dangerous command: Remove from root directory"⟩] else []) ++
    (if ddPatTest s then
      [⟨Severity.critical, "Dangerous command: Writing to block device"⟩] else []) ++
    (if forkPatTest s then
      [⟨Severity.critical, "Dangerous command: Fork bomb detected"⟩] else []) ++
    (if pipePatTest "wget" s then
      [⟨Severity.high, "Dangerous command: Piping download directly to shell"⟩] else []) ++
    (if pipePatTest "curl" s then
      [⟨Severity.high, "Dangerous command: Piping download directly to shell"⟩] else [])
  let creds : List Issue :=
    (if cred40Test s then
      [⟨Severity.medium, "Possible API key or token in script"⟩] else []) ++
    (if pwdPatTest s then
      [⟨Severity.medium, "Password found in script"⟩] else [])
  let issues := dangerous ++ creds
  { valid := !(issues.any (fun i => i.severity == Severity.critical)), issues := issues }

end Security

/-!
## `src/unnamed/part_004` (historical `security` module variant)

`maskSensitiveData` built on the `SENSITIVE_PATTERNS` table: seven
`gi`-flagged patterns applied in order, each replacing the captured
value by first character, asterisk run, last character.
-/

namespace SecurityV2

open JsStr

/-- The optional separator class inside keywords (underscore or
whitespace). -/
def sepClass (c : Char) : Bool :=
  c == '_' || isWs c

/-- Keyword candidate: one case-insensitive literal. -/
def kwSimple (w : String) (s : List Char) : List (List Char × List Char) :=
  match prefixCI w.data s with
  | some (m, r) => [(m, r)]
  | none => []

/-- Keyword candidate: case-insensitive prefix, optional separator
(greedy), case-insensitive suffix. -/
def kwSep (pre post : String) (s : List Char) : List (List Char × List Char) :=
  match prefixCI pre.data s with
  | none => []
  | some (m1, r1) =>
    let withSep :=
      match r1 with
      | c :: r2 =>
        if sepClass c then
          match prefixCI post.data r2 with
          | some (m2, r3) => [(m1 ++ c :: m2, r3)]
          | none => []
        else []
      | [] => []
    let noSep :=
      match prefixCI post.data r1 with
      | some (m2, r2) => [(m1 ++ m2, r2)]
      | none => []
    withSep ++ noSep

/-- The final consuming group of the shared pattern shape: one comma or
whitespace character, or end of input. -/
def delimCheck : List Char → Option (List Char × List Char)
  | [] => some ([], [])
  | c :: t => if c == ',' || isWs c then some ([c], t) else none

/-- Optional closing quote (greedy) followed by the final group. -/
def exitCheck (t : List Char) : Option (List Char × List Char) :=
  match t with
  | c :: t2 =>
    if c == dq || c == sq then
      match delimCheck t2 with
      | some (d, r) => some (c :: d, r)
      | none => delimCheck t
    else delimCheck t
  | [] => delimCheck []

/-- Lazy non-quote value capture: grow from one character, checking the
exit at every length (fuel bounds the input length). -/
def lazyGo : Nat → List Char → List Char → Option (List Char × List Char × List Char)
  | 0, _, _ => none
  | fuel + 1, acc, s =>
    match s with
    | [] => none
    | c :: t =>
      if c == dq || c == sq then none
      else
        match exitCheck t with
        | some (d, r) => some ((c :: acc).reverse, d, r)
        | none => lazyGo fuel (c :: acc) t

/-- The lazy value group of the shared pattern shape. -/
def lazyVal (s : List Char) : Option (List Char × List Char × List Char) :=
  lazyGo (s.length + 1) [] s

/-- Optional opening quote before the value (greedy) followed by the
lazy value group. -/
def valPart (mid : List Char) (sD : List Char) :
    Option (List Char × List Char × List Char × List Char) :=
  let tryNo :=
    match lazyVal sD with
    | some (p1, d, r) => some (mid, p1, d, r)
    | none => none
  match sD with
  | c :: sE =>
    if c == dq || c == sq then
      match lazyVal sE with
      | some (p1, d, r) => some (mid ++ [c], p1, d, r)
      | none => tryNo
    else tryNo
  | [] => tryNo

/-- From optional quote after the keyword: whitespace, colon-or-equals,
whitespace, then the value part. -/
def opPart (q1c : List Char) (sA : List Char) :
    Option (List Char × List Char × List Char × List Char) :=
  let ws1 := sA.takeWhile isWs
  let sB := sA.dropWhile isWs
  match sB with
  | c :: sC =>
    if c == ':' || c == '=' then
      let ws2 := sC.takeWhile isWs
      let sD := sC.dropWhile isWs
      valPart (q1c ++ ws1 ++ [c] ++ ws2) sD
    else none
  | [] => none

/-- Shared tail of the first six sensitive patterns, directly after the
keyword: optional quote (greedy, with backtracking). -/
def tailMatch (s1 : List Char) :
    Option (List Char × List Char × List Char × List Char) :=
  match s1 with
  | c :: s2 =>
    if c == dq || c == sq then
      match opPart [c] s2 with
      | some r => some r
      | none => opPart [] s1
    else opPart [] s1
  | [] => opPart [] []

/-- Replacement value of the source: first character, asterisk run of
length `max (n - 2) 0`, last character. -/
def maskedValue (p1 : List Char) : List Char :=
  match p1 with
  | [] => []
  | c :: rest => c :: (List.replicate (p1.length - 2) '*' ++ [rest.getLast?.getD c])

/-- Try the keyword candidates in alternation order, each followed by
the shared pattern tail; the emitted text is the whole match with the
first occurrence of the captured value replaced by its mask. -/
def tryCandsShared : List (List Char × List Char) → Option MRes
  | [] => none
  | (mk, r1) :: rest =>
    match tailMatch r1 with
    | some (mid, p1, d, rst) =>
      let matchText := mk ++ mid ++ p1 ++ d
      some ⟨replaceFirstSeq p1 (maskedValue p1) matchText, matchText.getLast?, rst⟩
    | none => tryCandsShared rest

/-- Positional matcher for one shared-shape sensitive pattern given its
keyword alternatives. -/
def sharedMatchAt (kwCands : List Char → List (List Char × List Char))
    (_prev : Option Char) (s : List Char) : Option MRes :=
  tryCandsShared (kwCands s)

/-- Keyword candidates of the first pattern (api key variants). -/
def p1Cands (s : List Char) : List (List Char × List Char) :=
  kwSep "api" "key" s ++ kwSimple "apikey" s ++ kwSep "api" "key" s

/-- Keyword candidates of the second pattern (password variants). -/
def p2Cands (s : List Char) : List (List Char × List Char) :=
  kwSimple "password" s ++ kwSimple "pass" s

/-- Candidates for the license pattern head. -/
def p7Go : List (List Char × List Char) → Option MRes
  | [] => none
  | (mk, r1) :: rest =>
    match r1 with
    | '=' :: c :: r2 =>
      if c == dq || c == sq then
        let v := r2.takeWhile (fun x => x != dq && x != sq)
        let r3 := r2.dropWhile (fun x => x != dq && x != sq)
        if v.isEmpty then p7Go rest
        else
          match r3 with
          | q :: r4 =>
            if q == dq || q == sq then
              let matchText := mk ++ '=' :: c :: (v ++ [q])
              some ⟨replaceFirstSeq v (maskedValue v) matchText, matchText.getLast?, r4⟩
            else p7Go rest
          | [] => p7Go rest
      else p7Go rest
    | _ => p7Go rest

/-- Positional matcher for the seventh pattern (quoted license key). -/
def p7MatchAt (_prev : Option Char) (s : List Char) : Option MRes :=
  p7Go (kwSep "license" "key" s)

/-- The `SENSITIVE_PATTERNS` table as positional matchers, in source
order. -/
def sensitivePatterns : List (Option Char → List Char → Option MRes) :=
  [sharedMatchAt p1Cands,
   sharedMatchAt p2Cands,
   sharedMatchAt (kwSimple "secret"),
   sharedMatchAt (kwSimple "token"),
   sharedMatchAt (kwSimple "key"),
   sharedMatchAt (kwSep "access" "key"),
   p7MatchAt]

/-- `maskSensitiveData` from `src/unnamed/part_004`: fold the masking
patterns over the text, each applied globally. -/
def maskSensitiveData (text : String) : String :=
  if text == "" then text
  else ⟨sensitivePatterns.foldl (fun acc p => replaceGlobal p acc) text.data⟩

end SecurityV2

/-!
## `src/apps/infrastructure/src/container/docker.ts`

The `DockerContainerProvider` pool.  A pooled Docker container is
modelled by its id; timestamps are naturals; the Docker daemon, clock
and health probe are inputs supplied per call.
-/

namespace DockerPool

/-- `ContainerPoolItem` from the source (the `container` field is
modelled by the container id). -/
structure ContainerPoolItem where
  id : String
  busy : Bool
  image : String
  created : Nat
  lastUsed : Nat
deriving DecidableEq, BEq

/-- The provider state: the pool array plus the `maxPoolSize` option. -/
structure PoolState where
  pool : List ContainerPoolItem
  maxPoolSize : Nat
deriving DecidableEq, BEq

/-- External inputs consumed by one `getContainer` call: the health
check verdict for a reused candidate, the id Docker assigns to a newly
created container, and the current time. -/
structure AcquireInput where
  healthy : Bool
  newId : String
  now : Nat

/-- `getAvailableContainer`: first idle pool entry with the requested
image. -/
def getAvailableContainer (pool : List ContainerPoolItem) (image : String) :
    Option ContainerPoolItem :=
  pool.find? (fun it => !it.busy && it.image == image)

/-- Mark the entry found by `getAvailableContainer` busy and touch its
`lastUsed` (the source mutates the found object in place). -/
def markFirstAvailable (pool : List ContainerPoolItem) (image : String) (now : Nat) :
    List ContainerPoolItem :=
  match pool with
  | [] => []
  | it :: t =>
    if !it.busy && it.image == image then
      { it with busy := true, lastUsed := now } :: t
    else
      it :: markFirstAvailable t image now

/-- Splice out the entry found by `getAvailableContainer` (the
unhealthy-candidate path). -/
def dropFirstAvailable (pool : List ContainerPoolItem) (image : String) :
    List ContainerPoolItem :=
  match pool with
  | [] => []
  | it :: t =>
    if !it.busy && it.image == image then t
    else it :: dropFirstAvailable t image

/-- `findLeastRecentlyUsedContainer`: head of the pool sorted by
`lastUsed` ascending (stable sort, so ties keep the earlier entry); no
filtering on `busy`. -/
def findLeastRecentlyUsedContainer (pool : List ContainerPoolItem) :
    Option ContainerPoolItem :=
  match pool with
  | [] => none
  | x :: xs => some (xs.foldl (fun best it => if it.lastUsed < best.lastUsed then it else best) x)

/-- Replace the pool entry holding the given id (the source writes the
replacement at `indexOf(lruContainer)`). -/
def replaceItem (pool : List ContainerPoolItem) (victim : String)
    (newItem : ContainerPoolItem) : List ContainerPoolItem :=
  match pool with
  | [] => []
  | it :: t =>
    if it.id == victim then newItem :: t
    else it :: replaceItem t victim newItem

/-- The creation-or-recycling tail of `getContainer`: create and push
while below capacity, otherwise stop/remove the least recently used
entry and write the replacement in its place. -/
def createOrRecycle (st : PoolState) (image : String) (inp : AcquireInput) :
    Except String String × PoolState :=
  if st.pool.length < st.maxPoolSize then
    (Except.ok inp.newId,
     { st with pool := st.pool ++ [⟨inp.newId, true, image, inp.now, inp.now⟩] })
  else
    match findLeastRecentlyUsedContainer st.pool with
    | none =>
      (Except.error ("Failed to get container for image " ++ image ++
        ": Failed to find a container to reuse - pool is empty"), st)
    | some lru =>
      (Except.ok inp.newId,
       { st with pool := replaceItem st.pool lru.id ⟨inp.newId, true, image, inp.now, inp.now⟩ })

/-- `getContainer` from the source: reuse a healthy idle entry of the
requested image, splice out an unhealthy candidate, then create below
capacity or recycle the least recently used entry at capacity. -/
def getContainer (st : PoolState) (image : String) (inp : AcquireInput) :
    Except String String × PoolState :=
  match getAvailableContainer st.pool image with
  | some it =>
    if inp.healthy then
      (Except.ok it.id, { st with pool := markFirstAvailable st.pool image inp.now })
    else
      createOrRecycle { st with pool := dropFirstAvailable st.pool image } image inp
  | none => createOrRecycle st image inp

/-- `releaseContainer`: mark the entry with this id idle and touch
`lastUsed`; an unknown id is logged and ignored. -/
def releaseContainer (st : PoolState) (cid : String) (now : Nat) : PoolState :=
  { st with
    pool := st.pool.map (fun it =>
      if it.id == cid then { it with busy := false, lastUsed := now } else it) }

/-- `destroyContainer`: remove the entry with this id from the pool (the
Docker stop/remove failures are caught and logged in the source). -/
def destroyContainer (st : PoolState) (cid : String) : PoolState :=
  match st.pool.find? (fun it => it.id == cid) with
  | none => st
  | some _ => { st with pool := st.pool.filter (fun it => !(it.id == cid)) }

/-- The ways one `executeCommand` call can leave its promise, as seen
from the stream handlers of the source. -/
inductive StreamOutcome where
  | setupError (msg : String)
  | timeout
  | streamError (msg : String)
  | endInspectError (msg : String)
  | endOk (exitCode : Int) (output : String)

/-- Observable outcome of one `executeCommand` call: the settled value,
the pool state afterwards, and how many `releaseContainer` calls ran
before the promise settled. -/
structure ExecOutcome where
  result : Except String (Int × String)
  state : PoolState
  releases : Nat

/-- `executeCommand` from the source, per stream outcome:
* creation/start failure: the outer catch releases, then rethrows;
* timer fired: release, then reject with the timeout error;
* stream error event: release, then reject;
* stream end but `exec.inspect()` threw: reject with the exit-code
  error — no release happens on this path;
* stream end with an exit code: release, then resolve. -/
def executeCommand (st : PoolState) (cid : String) (outcome : StreamOutcome) (now : Nat) :
    ExecOutcome :=
  match outcome with
  | StreamOutcome.setupError m =>
    ⟨Except.error ("Failed to execute command in container " ++ cid ++ ": " ++ m),
     releaseContainer st cid now, 1⟩
  | StreamOutcome.timeout =>
    ⟨Except.error "Command execution timed out", releaseContainer st cid now, 1⟩
  | StreamOutcome.streamError m =>
    ⟨Except.error ("Stream error: " ++ m), releaseContainer st cid now, 1⟩
  | StreamOutcome.endInspectError m =>
    ⟨Except.error ("Failed to get exit code: " ++ m), st, 0⟩
  | StreamOutcome.endOk code out =>
    ⟨Except.ok (code, out), releaseContainer st cid now, 1⟩

/-- A pool operation, for reasoning over call sequences. -/
inductive PoolOp where
  | acquire (image : String) (inp : AcquireInput)
  | release (cid : String) (now : Nat)
  | destroy (cid : String)

/-- Apply one operation to the pool state. -/
def applyOp (st : PoolState) : PoolOp → PoolState
  | PoolOp.acquire image inp => (getContainer st image inp).2
  | PoolOp.release cid now => releaseContainer st cid now
  | PoolOp.destroy cid => destroyContainer st cid

/-- Run a sequence of pool operations. -/
def runOps (st : PoolState) (ops : List PoolOp) : PoolState :=
  ops.foldl applyOp st

/-- Number of busy entries. -/
def countBusy (pool : List ContainerPoolItem) : Nat :=
  (pool.filter (fun it => it.busy)).length

end DockerPool

/-!
## `src/unnamed/part_000` (`TemplateScriptGenerator`, cached variant)

`generateScript` with its bounded script cache, placeholder
substitution, conditional blocks, and the condition evaluator.

JavaScript value semantics needed by the evaluator are embedded for the
scalar values that occur in this program: strings, integers
(`ToNumber` is restricted to optionally-signed decimal integer
literals), booleans and `undefined`.  The `in` operator of JavaScript
walks the prototype chain, so the embedded membership test also accepts
the own property names of `Object.prototype`, all of whose values
(methods and the prototype accessor) are truthy.
-/

namespace TemplateGen

open JsStr

/-- Scalar JavaScript values flowing through the generator. -/
inductive JSV where
  | undef
  | str (s : String)
  | num (n : Int)
  | bool (b : Bool)
deriving DecidableEq, BEq

/-- A parameter object: key-value pairs in insertion order. -/
abbrev Params := List (String × JSV)

/-- Own-property read. -/
def lookupParam (params : Params) (k : String) : Option JSV :=
  (List.find? (fun p => p.1 == k) params).map (fun p => p.2)

/-- Own property names of `Object.prototype`, visible to the JavaScript
`in` operator on plain object literals. -/
def objectPrototypeProps : List String :=
  ["constructor", "hasOwnProperty", "isPrototypeOf", "propertyIsEnumerable",
   "toLocaleString", "toString", "valueOf",
   "__defineGetter__", "__defineSetter__", "__lookupGetter__", "__lookupSetter__",
   "__proto__"]

/-- The JavaScript `in` operator on a plain object literal: own
properties or inherited `Object.prototype` properties. -/
def jsIn (k : String) (params : Params) : Bool :=
  (lookupParam params k).isSome || objectPrototypeProps.contains k

/-- JavaScript truthiness of the embedded scalars. -/
def truthy : JSV → Bool
  | JSV.undef => false
  | JSV.str s => !(s == "")
  | JSV.num n => !(n == 0)
  | JSV.bool b => b

/-- `Boolean(params[k])` for a key that passed the `in` check: an own
value is tested for truthiness; an inherited `Object.prototype` member
is a function or object, hence truthy. -/
def truthyPropRead (params : Params) (k : String) : Bool :=
  match lookupParam params k with
  | some v => truthy v
  | none => true

/-- `ToNumber` on a string, restricted to optionally-signed decimal
integer literals (and the empty/whitespace string, which is zero);
`none` is NaN. -/
def parseNumber (s : String) : Option Int :=
  let t := trimChars s.data
  let natOf : List Char → Option Int := fun l =>
    if !l.isEmpty && l.all Char.isDigit then
      some (Int.ofNat (l.foldl (fun a c => a * 10 + (c.toNat - 48)) 0))
    else none
  match t with
  | [] => some 0
  | '+' :: r => natOf r
  | '-' :: r => (natOf r).map (fun n => -n)
  | _ => natOf t

/-- `ToNumber` on the embedded scalars; `none` is NaN. -/
def toNumber : JSV → Option Int
  | JSV.undef => none
  | JSV.num n => some n
  | JSV.bool b => some (if b then 1 else 0)
  | JSV.str s => parseNumber s

/-- JavaScript loose equality on the embedded scalars. -/
def jsEq (a b : JSV) : Bool :=
  match a, b with
  | JSV.undef, JSV.undef => true
  | JSV.undef, _ => false
  | _, JSV.undef => false
  | JSV.str x, JSV.str y => x == y
  | _, _ =>
    match toNumber a, toNumber b with
    | some x, some y => x == y
    | _, _ => false

/-- JavaScript abstract relational comparison (less-than) on the
embedded scalars: string-to-string is lexicographic, otherwise numeric,
and NaN compares false. -/
def jsLt (a b : JSV) : Bool :=
  match a, b with
  | JSV.str x, JSV.str y => decide (x < y)
  | _, _ =>
    match toNumber a, toNumber b with
    | some x, some y => decide (x < y)
    | _, _ => false

/-- JavaScript greater-than on the embedded scalars. -/
def jsGt (a b : JSV) : Bool :=
  jsLt b a

/-- JavaScript `String.prototype.substring`: indices clamped to the
string length and swapped when out of order. -/
def jsSubstring (s : String) (a b : Nat) : String :=
  let l := s.data
  let n := l.length
  let a1 := min a n
  let b1 := min b n
  let lo := min a1 b1
  let hi := max a1 b1
  ⟨(l.drop lo).take (hi - lo)⟩

/-- The double-quote as a one-character string. -/
def dqS : String :=
  String.singleton dq

/-- The single-quote as a one-character string. -/
def sqS : String :=
  String.singleton sq

/-- `getParamValue` from the source: `params.`-prefixed lookup, quoted
string literal, numeric literal, boolean literal, or bare key lookup
(bare lookup modelled as an own-property read). -/
def getParamValue (expr : String) (params : Params) : JSV :=
  if sStartsWith expr "params." then
    (lookupParam params (sDrop expr 7)).getD JSV.undef
  else if sStartsWith expr dqS && sEndsWith expr dqS then
    JSV.str (jsSubstring expr 1 (sLength expr - 1))
  else if sStartsWith expr sqS && sEndsWith expr sqS then
    JSV.str (jsSubstring expr 1 (sLength expr - 1))
  else
    match parseNumber expr with
    | some n => JSV.num n
    | none =>
      if expr == "true" then JSV.bool true
      else if expr == "false" then JSV.bool false
      else (lookupParam params expr).getD JSV.undef

/-- First and second element of a JavaScript `split` result, trimmed. -/
def splitSides (sep : String) (condition : String) : String × String :=
  let parts := splitOnSeq sep.data condition.data
  (⟨trimChars (parts.getD 0 [])⟩, ⟨trimChars (parts.getD 1 [])⟩)

/-- `evaluateCondition` from the source: direct `in`-membership check
first, then the comparison operators in source order, else false (the
surrounding try/catch also yields false, so the embedding is total). -/
def evaluateCondition (condition : String) (params : Params) : Bool :=
  if jsIn condition params then
    truthyPropRead params condition
  else if containsSeq "==".data condition.data then
    let (l, r) := splitSides "==" condition
    jsEq (getParamValue l params) (getParamValue r params)
  else if containsSeq "!=".data condition.data then
    let (l, r) := splitSides "!=" condition
    !(jsEq (getParamValue l params) (getParamValue r params))
  else if containsSeq ">".data condition.data then
    let (l, r) := splitSides ">" condition
    jsGt (getParamValue l params) (getParamValue r params)
  else if containsSeq "<".data condition.data then
    let (l, r) := splitSides "<" condition
    jsLt (getParamValue l params) (getParamValue r params)
  else
    false

/-- `String(value)` for the substitutable scalars. -/
def jsToString : JSV → String
  | JSV.undef => "undefined"
  | JSV.str s => s
  | JSV.num n => toString n
  | JSV.bool b => if b then "true" else "false"

/-- Literal global replacement (used for the per-key placeholder
regexes, whose pattern text is the escaped placeholder literal). -/
def replaceAllLit (pat repl : List Char) (s : List Char) : List Char :=
  replaceGlobal
    (fun _ u =>
      if !pat.isEmpty && pat.isPrefixOf u then
        some ⟨repl, pat.getLast?, u.drop pat.length⟩
      else none)
    s

/-- The placeholder-substitution loop of `generateScript`: each scalar
parameter replaces all occurrences of its doubly-braced key. -/
def substPlaceholders (template : String) (params : Params) : String :=
  ⟨params.foldl
    (fun acc kv =>
      match kv.2 with
      | JSV.undef => acc
      | v => replaceAllLit ("\x7b\x7b" ++ kv.1 ++ "\x7d\x7d").data (jsToString v).data acc)
    template.data⟩

/-- Scan for the lazy else-block: at each length, look for the closing
tag. -/
def elseScanGo : Nat → List Char → List Char → Option (List Char × List Char)
  | 0, _, _ => none
  | fuel + 1, acc, u =>
    if "\x7b\x7b/if\x7d\x7d".data.isPrefixOf u then
      some (acc.reverse, u.drop 7)
    else
      match u with
      | [] => none
      | c :: t => elseScanGo fuel (c :: acc) t

/-- Scan for the lazy if-block: at each length, first try the optional
else part (greedy option), then the closing tag, then extend. -/
def bodyScanGo : Nat → List Char → List Char → Option (List Char × List Char × List Char)
  | 0, _, _ => none
  | fuel + 1, acc, u =>
    if "\x7b\x7belse\x7d\x7d".data.isPrefixOf u then
      match elseScanGo (u.length + 1) [] (u.drop 8) with
      | some (els, rest) => some (acc.reverse, els, rest)
      | none =>
        if "\x7b\x7b/if\x7d\x7d".data.isPrefixOf u then
          some (acc.reverse, [], u.drop 7)
        else
          match u with
          | [] => none
          | c :: t => bodyScanGo fuel (c :: acc) t
    else if "\x7b\x7b/if\x7d\x7d".data.isPrefixOf u then
      some (acc.reverse, [], u.drop 7)
    else
      match u with
      | [] => none
      | c :: t => bodyScanGo fuel (c :: acc) t

/-- Positional matcher for the conditional-block regex of
`processConditionals`: `#if`, whitespace, a condition of non-brace
characters (greedy, with the single backtracking case where the
condition would otherwise be empty), the lazy if-block, an optional
else-block, and the closing tag. -/
def condMatchAt (params : Params) (_prev : Option Char) (s : List Char) : Option MRes :=
  if "\x7b\x7b#if".data.isPrefixOf s then
    let afterIf := s.drop 5
    let t := afterIf.takeWhile (fun c => !(c == Char.ofNat 125))
    let afterT := afterIf.drop t.length
    let w := t.takeWhile isWs
    let capRaw := t.drop w.length
    let cap :=
      if w.isEmpty then []
      else if !capRaw.isEmpty then capRaw
      else if 2 ≤ w.length then [w.getLast?.getD ' ']
      else []
    if cap.isEmpty then none
    else if "\x7d\x7d".data.isPrefixOf afterT then
      match bodyScanGo (afterT.length + 1) [] (afterT.drop 2) with
      | some (ifBlock, elseBlock, rest) =>
        let body := if evaluateCondition ⟨cap⟩ params then ifBlock else elseBlock
        some ⟨body, some (Char.ofNat 125), rest⟩
      | none => none
    else none
  else none

/-- `processConditionals` from the source: global replacement of
conditional blocks by the side selected by `evaluateCondition`. -/
def processConditionals (script : String) (params : Params) : String :=
  ⟨replaceGlobal (condMatchAt params) script.data⟩

/-- `path.join` of the embedding. -/
def pathJoin (parts : List String) : String :=
  String.intercalate "/" parts

/-- `os.split('-')[0]`. -/
def dashHead (os : String) : String :=
  ⟨(splitOnSeq "-".data os.data).getD 0 []⟩

/-- `findTemplate` from the source, merged with the subsequent read:
the candidate paths in specificity order, resolved against the
filesystem (modelled as a path-to-content association list); returns
the first existing template with its content. -/
def findTemplate (fs : List (String × String)) (templatesDir integration operation : String)
    (os : Option String) : Option (String × String) :=
  let possiblePaths :=
    (match os with
     | some o =>
       [pathJoin [templatesDir, integration, o, operation ++ ".sh.template"],
        pathJoin [templatesDir, integration, dashHead o, operation ++ ".sh.template"]]
     | none => []) ++
    [pathJoin [templatesDir, integration, operation ++ ".sh.template"],
     pathJoin [templatesDir, "generic", operation ++ ".sh.template"]]
  (possiblePaths.filterMap
    (fun p => (List.find? (fun e => e.1 == p) fs).map (fun e => (p, e.2)))).head?

/-- Remove a property (`delete relevantParams.license_key`). -/
def deleteKey (k : String) (params : Params) : Params :=
  params.filter (fun p => !(p.1 == k))

/-- Minimal `JSON.stringify` string quoting for the embedded scalars. -/
def jsonQuote (s : String) : String :=
  ⟨[dq] ++ s.data.foldr
    (fun c acc =>
      if c == dq then '\\' :: dq :: acc
      else if c == '\\' then '\\' :: '\\' :: acc
      else c :: acc) [] ++ [dq]⟩

/-- `JSON.stringify` on a parameter object: undefined-valued properties
are omitted, the rest serialize in insertion order. -/
def jsonStringify (params : Params) : String :=
  "\x7b" ++
    String.intercalate ","
      (params.filterMap
        (fun kv =>
          match kv.2 with
          | JSV.undef => none
          | JSV.str s => some (jsonQuote kv.1 ++ ":" ++ jsonQuote s)
          | JSV.num n => some (jsonQuote kv.1 ++ ":" ++ toString n)
          | JSV.bool b => some (jsonQuote kv.1 ++ ":" ++ (if b then "true" else "false")))) ++
    "\x7d"

/-- `getCacheKey` from the source: integration, operation, and the
parameter fingerprint with the `license_key` property deleted. -/
def getCacheKey (integration operation : String) (params : Params) : String :=
  integration ++ ":" ++ operation ++ ":" ++ jsonStringify (deleteKey "license_key" params)

/-- `Map.prototype.set`: update in place, else append. -/
def mapSet (l : List (String × String)) (k v : String) : List (String × String) :=
  match l with
  | [] => [(k, v)]
  | (a, b) :: t => if a == k then (a, v) :: t else (a, b) :: mapSet t k v

/-- `cacheScript` from the source: at capacity delete the oldest key
(if it is truthy), then insert. -/
def cacheScript (maxCacheSize : Nat) (cache : List (String × String)) (key script : String) :
    List (String × String) :=
  let c1 :=
    if maxCacheSize ≤ cache.length then
      match cache with
      | [] => []
      | (k0, v0) :: t => if k0 == "" then (k0, v0) :: t else t
    else cache
  mapSet c1 key script

/-- The generator state: the bounded script cache in insertion order. -/
structure GenState where
  cache : List (String × String)
deriving DecidableEq, BEq

/-- `generateScript` from the source: cache lookup by fingerprint key,
template resolution, placeholder substitution, conditional processing,
cache insertion. -/
def generateScript (fs : List (String × String)) (templatesDir : String) (maxCacheSize : Nat)
    (st : GenState) (integration operation : String) (params : Params) :
    Except String (String × GenState) :=
  let cacheKey := getCacheKey integration operation params
  match List.find? (fun p => p.1 == cacheKey) st.cache with
  | some p => Except.ok (p.2, st)
  | none =>
    let osParam : Option String :=
      match lookupParam params "os" with
      | some (JSV.str s) => some s
      | _ => none
    match findTemplate fs templatesDir integration operation osParam with
    | none =>
      Except.error ("Template not found for " ++ integration ++ " " ++ operation ++ " on " ++
        (match osParam with | some o => o | none => "undefined"))
    | some (_, template) =>
      let script := processConditionals (substPlaceholders template params) params
      Except.ok (script, ⟨cacheScript maxCacheSize st.cache cacheKey script⟩)

end TemplateGen

/-!
## `src/apps/app/src/controllers/installation.ts` and the live
`withErrorHandling` of `src/unnamed/part_004`

The controller is embedded against the error-handling module it
resolves to: `withErrorHandling` with `retries` defaulting to three,
an `onError` callback invoked on every failed attempt whose returned
promise is not awaited (fire-and-forget), and the last error rethrown
after the final attempt.

The executor behind the `Executor` interface (`executeScript`,
`verifyInstallation`, `executeRollback`) has no implementation under
`src/`, so its per-call outcomes are inputs.  Rollback invocations are
counted; `rollbackFailure n` tells whether the n-th `executeRollback`
call rejects, which the controller only ever observes on the awaited
verification-failure path.
-/

namespace Installation

/-- `InstallationOptions`, with the tri-state TypeScript option fields
already resolved the way the controller reads them (`verify` models
`options.verify !== false`, `rollbackOnError` models
`options.rollbackOnError !== false`, `baseImage` models
`options.baseImage || 'ubuntu:22.04'`). -/
structure InstallationOptions where
  baseImage : String := "ubuntu:22.04"
  verify : Bool := true
  rollbackOnError : Bool := true
  dryRun : Bool := false

/-- `ExecutionResult` of the executor interface (the fields the
controller reads). -/
structure ExecutionResultM where
  success : Bool
  exitCode : Int
  output : String

/-- The record `installIntegration` returns to its caller. -/
structure InstallOutcome where
  success : Bool
  message : String
  logs : List String
deriving DecidableEq, BEq

/-- Per-call behaviour of the executor collaborator. -/
structure ExecutorModel where
  installResult : Nat → ExecutionResultM
  verifySuccess : Bool
  verifyOutput : String
  rollbackFailure : Nat → Option String

/-- The `withErrorHandling` attempt loop around the install step:
`remaining` starts at the default three retries; a failed attempt fires
`onError` (which starts one rollback when rollback is enabled) and,
with no retries left, surfaces the last `IntegrationError`.  The
second component counts started rollback invocations. -/
def installLoop (ex : ExecutorModel) (rbEnabled : Bool) :
    Nat → Nat → Nat → Except String ExecutionResultM × Nat
  | 0, attempt, rb =>
    let r := ex.installResult attempt
    if r.success then (Except.ok r, rb)
    else
      (Except.error ("Installation failed with exit code " ++ toString r.exitCode ++ ": " ++
        r.output),
       if rbEnabled then rb + 1 else rb)
  | remaining + 1, attempt, rb =>
    let r := ex.installResult attempt
    if r.success then (Except.ok r, rb)
    else
      installLoop ex rbEnabled remaining (attempt + 1) (if rbEnabled then rb + 1 else rb)

/-- `executeInstallation` from the source: the retried install step,
then verification (when enabled) with an awaited rollback on
verification failure.  An `Except.error` is an exception propagating to
the caller of `executeInstallation`; the count is the number of started
rollback invocations. -/
def executeInstallation (integration : String) (ex : ExecutorModel)
    (opts : InstallationOptions) : Except String InstallOutcome × Nat :=
  match installLoop ex opts.rollbackOnError 3 0 0 with
  | (Except.error m, rb) => (Except.error m, rb)
  | (Except.ok r, rb) =>
    if opts.verify then
      if ex.verifySuccess then
        (Except.ok ⟨true, "Successfully installed " ++ integration ++ " integration",
          [r.output]⟩, rb)
      else
        if opts.rollbackOnError then
          match ex.rollbackFailure rb with
          | some m => (Except.error m, rb + 1)
          | none =>
            (Except.ok ⟨false, "Verification failed: " ++ ex.verifyOutput,
              [r.output, ex.verifyOutput]⟩, rb + 1)
        else
          (Except.ok ⟨false, "Verification failed: " ++ ex.verifyOutput,
            [r.output, ex.verifyOutput]⟩, rb)
    else
      (Except.ok ⟨true, "Successfully installed " ++ integration ++ " integration",
        [r.output]⟩, rb)

/-- Inputs of one `installIntegration` call that come from collaborators
outside the claims: the query extraction/validation outcome, the script
generator outcome, the container-pool acquire inputs, and the
executor. -/
structure ControllerEnv where
  extract : Except String String
  scriptGen : Except String String
  acquire : DockerPool.AcquireInput
  executor : ExecutorModel

/-- Observable outcome of one `installIntegration` call. -/
structure InstallRun where
  outcome : InstallOutcome
  state : DockerPool.PoolState
  rollbackCalls : Nat
  acquireCalls : Nat

/-- `installIntegration` from
`src/apps/app/src/controllers/installation.ts`: extraction and
validation, script generation, the dry-run short-circuit, container
acquisition, then `executeInstallation`; every thrown error is caught
and returned as a failure record with empty logs. -/
def installIntegration (env : ControllerEnv) (opts : InstallationOptions)
    (st : DockerPool.PoolState) : InstallRun :=
  match env.extract with
  | Except.error m => ⟨⟨false, "Installation failed: " ++ m, []⟩, st, 0, 0⟩
  | Except.ok integration =>
    match env.scriptGen with
    | Except.error m =>
      ⟨⟨false, "Installation failed: Failed to generate script for " ++ integration ++ ": " ++ m,
        []⟩, st, 0, 0⟩
    | Except.ok script =>
      if opts.dryRun then
        ⟨⟨true, "Installation script generated successfully (dry run)", [script]⟩, st, 0, 0⟩
      else
        match DockerPool.getContainer st opts.baseImage env.acquire with
        | (Except.error m, st1) => ⟨⟨false, "Installation failed: " ++ m, []⟩, st1, 0, 1⟩
        | (Except.ok _cid, st1) =>
          match executeInstallation integration env.executor opts with
          | (Except.ok o, rb) => ⟨o, st1, rb, 1⟩
          | (Except.error m, rb) =>
            ⟨⟨false, "Installation failed: " ++ m, []⟩, st1, rb, 1⟩

end Installation

/-!
## `src/unnamed/part_010` (historical `InstallationController` variant)

Same controller shape, but the container is acquired before the script
is generated and before the dry-run check.
-/

namespace InstallationV2

open Installation

/-- `installIntegration` from `src/unnamed/part_010`: extraction, then
container acquisition, then script generation, then the dry-run
short-circuit, then execution. -/
def installIntegration (env : ControllerEnv) (opts : InstallationOptions)
    (st : DockerPool.PoolState) : InstallRun :=
  match env.extract with
  | Except.error m => ⟨⟨false, "Installation failed: " ++ m, []⟩, st, 0, 0⟩
  | Except.ok integration =>
    match DockerPool.getContainer st opts.baseImage env.acquire with
    | (Except.error m, st1) => ⟨⟨false, "Installation failed: " ++ m, []⟩, st1, 0, 1⟩
    | (Except.ok _cid, st1) =>
      match env.scriptGen with
      | Except.error m =>
        ⟨⟨false, "Installation failed: Failed to generate script for " ++ integration ++ ": " ++
          m, []⟩, st1, 0, 1⟩
      | Except.ok script =>
        if opts.dryRun then
          ⟨⟨true, "Installation script generated successfully (dry run)", [script]⟩, st1, 0, 1⟩
        else
          match executeInstallation integration env.executor opts with
          | (Except.ok o, rb) => ⟨o, st1, rb, 1⟩
          | (Except.error m, rb) =>
            ⟨⟨false, "Installation failed: " ++ m, []⟩, st1, rb, 1⟩

end InstallationV2

/-!
## Concrete states and collaborator models used by the claim theorems
-/

/-- A pool holding one busy container, capacity five. -/
def demoBusyPool : DockerPool.PoolState :=
  ⟨[⟨"c1", true, "ubuntu:22.04", 0, 0⟩], 5⟩

/-- A pool at capacity one whose only entry is busy. -/
def demoFullBusyPool : DockerPool.PoolState :=
  ⟨[⟨"busy1", true, "img", 0, 0⟩], 1⟩

/-- An empty pool with capacity five. -/
def demoEmptyPool : DockerPool.PoolState :=
  ⟨[], 5⟩

/-- Acquire inputs: candidate healthy, fresh id, time ten. -/
def demoAcquire : DockerPool.AcquireInput :=
  ⟨true, "fresh1", 10⟩

/-- An executor whose install step always exits nonzero. -/
def failingExecutor : Installation.ExecutorModel :=
  ⟨fun _ => ⟨false, 1, "install output"⟩, true, "verify output", fun _ => none⟩

/-- An executor whose install step succeeds, whose verification fails,
and whose rollback execution rejects. -/
def rollbackThrowingExecutor : Installation.ExecutorModel :=
  ⟨fun _ => ⟨true, 0, "install ok output"⟩, false, "verify bad output",
   fun _ => some "rollback exploded"⟩

/-- An executor on which every step succeeds. -/
def idleExecutor : Installation.ExecutorModel :=
  ⟨fun _ => ⟨true, 0, "install ok output"⟩, true, "verify ok output", fun _ => none⟩

/-- Controller inputs for the failing-install scenario. -/
def envFailingInstall : Installation.ControllerEnv :=
  ⟨Except.ok "redis", Except.ok "echo install", ⟨true, "cnew", 5⟩, failingExecutor⟩

/-- Controller inputs for the failing-verification scenario with a
rejecting rollback. -/
def envRollbackThrow : Installation.ControllerEnv :=
  ⟨Except.ok "redis", Except.ok "echo install", ⟨true, "cnew", 5⟩, rollbackThrowingExecutor⟩

/-- Controller inputs for the dry-run scenario. -/
def envDryRun : Installation.ControllerEnv :=
  ⟨Except.ok "redis", Except.ok "the rendered script", ⟨true, "c0", 5⟩, idleExecutor⟩

/-!
## Claim theorems
-/

/-- Claim C1: for every call to the executor run/executeCommand on a
leased environment, on every exit path — normal stream completion,
execution timeout, and stream error — the environment is marked
not-busy exactly once before the call result or error is delivered.
The code violates the invariant on one exit path: when the stream ends
normally but fetching the exit code throws, the error is delivered with
no release and the container stays busy.  This theorem evaluates
`executeCommand` on that failing input (and, for contrast, on the three
paths the claim names, which do release exactly once). -/
theorem executeCommand_inspect_failure_leaks_container :
    (DockerPool.executeCommand demoBusyPool "c1"
      (DockerPool.StreamOutcome.endInspectError "boom") 7).releases = 0 ∧
    (DockerPool.executeCommand demoBusyPool "c1"
      (DockerPool.StreamOutcome.endInspectError "boom") 7).state = demoBusyPool ∧
    (DockerPool.executeCommand demoBusyPool "c1"
      (DockerPool.StreamOutcome.endInspectError "boom") 7).result =
        Except.error "Failed to get exit code: boom" ∧
    (DockerPool.executeCommand demoBusyPool "c1"
      (DockerPool.StreamOutcome.endInspectError "boom") 7).state.pool.map
        (fun it => it.busy) = [true] ∧
    (DockerPool.executeCommand demoBusyPool "c1" DockerPool.StreamOutcome.timeout 7).releases
      = 1 ∧
    (DockerPool.executeCommand demoBusyPool "c1"
      DockerPool.StreamOutcome.timeout 7).state.pool.map (fun it => it.busy) = [false] ∧
    (DockerPool.executeCommand demoBusyPool "c1"
      (DockerPool.StreamOutcome.streamError "io gone") 7).releases = 1 ∧
    (DockerPool.executeCommand demoBusyPool "c1"
      (DockerPool.StreamOutcome.streamError "io gone") 7).state.pool.map
        (fun it => it.busy) = [false] ∧
    (DockerPool.executeCommand demoBusyPool "c1"
      (DockerPool.StreamOutcome.endOk 0 "done") 7).releases = 1 ∧
    (DockerPool.executeCommand demoBusyPool "c1"
      (DockerPool.StreamOutcome.endOk 0 "done") 7).state.pool.map
        (fun it => it.busy) = [false] := by
  decide

/-- Claim C2: with the pool at capacity and no idle environment of the
requested image, recycling selects its victim only among idle entries
and fails with a backpressure error if none exists; it never destroys a
busy environment.  The code violates this: the least-recently-used scan
does not filter on the busy flag, so with a single busy entry at
capacity the call succeeds and replaces the busy container instead of
failing.  This theorem evaluates `getContainer` on that failing
input. -/
theorem getContainer_recycles_busy_at_capacity :
    DockerPool.findLeastRecentlyUsedContainer demoFullBusyPool.pool =
      some ⟨"busy1", true, "img", 0, 0⟩ ∧
    (DockerPool.getContainer demoFullBusyPool "img" demoAcquire).1 = Except.ok "fresh1" ∧
    (DockerPool.getContainer demoFullBusyPool "img" demoAcquire).2 =
      ⟨[⟨"fresh1", true, "img", 10, 10⟩], 1⟩ := by
  decide

/-- The pool never outgrows its configured capacity. -/
def PoolInv (st : DockerPool.PoolState) : Prop :=
  st.pool.length ≤ st.maxPoolSize

theorem length_markFirstAvailable (pool : List DockerPool.ContainerPoolItem)
    (image : String) (now : Nat) :
    (DockerPool.markFirstAvailable pool image now).length = pool.length := by
  induction pool with
  | nil => rfl
  | cons it t ih =>
    simp only [DockerPool.markFirstAvailable]
    split
    · simp
    · simpa using ih

theorem length_replaceItem (pool : List DockerPool.ContainerPoolItem)
    (v : String) (n : DockerPool.ContainerPoolItem) :
    (DockerPool.replaceItem pool v n).length = pool.length := by
  induction pool with
  | nil => rfl
  | cons it t ih =>
    simp only [DockerPool.replaceItem]
    split
    · simp
    · simpa using ih

theorem length_dropFirstAvailable_le (pool : List DockerPool.ContainerPoolItem)
    (image : String) :
    (DockerPool.dropFirstAvailable pool image).length ≤ pool.length := by
  induction pool with
  | nil => simp [DockerPool.dropFirstAvailable]
  | cons it t ih =>
    simp only [DockerPool.dropFirstAvailable]
    split
    · simp
    · simpa using Nat.succ_le_succ ih

theorem createOrRecycle_max (st : DockerPool.PoolState) (image : String)
    (inp : DockerPool.AcquireInput) :
    ((DockerPool.createOrRecycle st image inp).2).maxPoolSize = st.maxPoolSize := by
  unfold DockerPool.createOrRecycle
  split
  · rfl
  · split <;> rfl

theorem createOrRecycle_len (st : DockerPool.PoolState) (image : String)
    (inp : DockerPool.AcquireInput) (h : st.pool.length ≤ st.maxPoolSize) :
    ((DockerPool.createOrRecycle st image inp).2).pool.length ≤ st.maxPoolSize := by
  unfold DockerPool.createOrRecycle
  by_cases hlt : st.pool.length < st.maxPoolSize
  · simp [hlt]
    omega
  · simp [hlt]
    split
    · exact h
    · simpa [length_replaceItem] using h

theorem getContainer_max (st : DockerPool.PoolState) (image : String)
    (inp : DockerPool.AcquireInput) :
    ((DockerPool.getContainer st image inp).2).maxPoolSize = st.maxPoolSize := by
  unfold DockerPool.getContainer
  split
  · split
    · rfl
    · exact createOrRecycle_max _ _ _
  · exact createOrRecycle_max _ _ _

theorem getContainer_inv (st : DockerPool.PoolState) (image : String)
    (inp : DockerPool.AcquireInput) (h : PoolInv st) :
    PoolInv ((DockerPool.getContainer st image inp).2) := by
  unfold PoolInv at h ⊢
  rw [getContainer_max]
  unfold DockerPool.getContainer
  split
  · split
    · simpa [length_markFirstAvailable] using h
    · exact createOrRecycle_len _ _ _
        (Nat.le_trans (length_dropFirstAvailable_le _ _) h)
  · exact createOrRecycle_len _ _ _ h

theorem applyOp_max (st : DockerPool.PoolState) (op : DockerPool.PoolOp) :
    (DockerPool.applyOp st op).maxPoolSize = st.maxPoolSize := by
  cases op with
  | acquire image inp => exact getContainer_max st image inp
  | release cid now => rfl
  | destroy cid =>
    show (DockerPool.destroyContainer st cid).maxPoolSize = st.maxPoolSize
    unfold DockerPool.destroyContainer
    split <;> rfl

theorem applyOp_inv (st : DockerPool.PoolState) (op : DockerPool.PoolOp) (h : PoolInv st) :
    PoolInv (DockerPool.applyOp st op) := by
  cases op with
  | acquire image inp => exact getContainer_inv st image inp h
  | release cid now =>
    show PoolInv (DockerPool.releaseContainer st cid now)
    unfold PoolInv DockerPool.releaseContainer
    unfold PoolInv at h
    simpa using h
  | destroy cid =>
    show PoolInv (DockerPool.destroyContainer st cid)
    unfold PoolInv DockerPool.destroyContainer
    unfold PoolInv at h
    split
    · exact h
    · simpa using Nat.le_trans (List.length_filter_le _ _) h

theorem runOps_inv (ops : List DockerPool.PoolOp) :
    ∀ st : DockerPool.PoolState, PoolInv st →
      PoolInv (DockerPool.runOps st ops) ∧
        (DockerPool.runOps st ops).maxPoolSize = st.maxPoolSize := by
  induction ops with
  | nil => exact fun st h => ⟨h, rfl⟩
  | cons op t ih =>
    intro st h
    have h1 := ih (DockerPool.applyOp st op) (applyOp_inv st op h)
    refine ⟨h1.1, ?_⟩
    rw [show DockerPool.runOps st (op :: t) = DockerPool.runOps (DockerPool.applyOp st op) t
      from rfl, h1.2, applyOp_max]

/-- Claim C3: for every sequence of pool operations starting from the
empty pool with configured capacity N, the number of pool entries —
and hence the number of simultaneously busy environments — never
exceeds N: `getContainer` only pushes a new entry while the pool is
below capacity and at capacity replaces an existing entry in place. -/
theorem pool_capacity_never_exceeded (N : Nat) (ops : List DockerPool.PoolOp) :
    DockerPool.countBusy ((DockerPool.runOps ⟨[], N⟩ ops).pool) ≤ N ∧
    ((DockerPool.runOps ⟨[], N⟩ ops).pool).length ≤ N := by
  have h0 : PoolInv (⟨[], N⟩ : DockerPool.PoolState) := Nat.zero_le N
  have h := runOps_inv ops ⟨[], N⟩ h0
  have hlen : ((DockerPool.runOps ⟨[], N⟩ ops).pool).length ≤ N := by
    have := h.1
    unfold PoolInv at this
    rwa [h.2] at this
  exact ⟨Nat.le_trans (List.length_filter_le _ _) hlen, hlen⟩

/-- Claim C4 counterexample: the claim states that the masking function
keeps the first and last characters of the secret with the interior
replaced by asterisks.  For the masking function of
`src/apps/core/src/utils/security.ts` this is false: the whole value is
replaced by a three-asterisk literal, so the output differs from the
only string of the claimed shape. -/
theorem maskSensitiveData_core_no_first_last_preservation :
    Security.maskSensitiveData "license_key=ABCD1234WXYZ" = "license_key=***" ∧
    "license_key=***" ≠ "license_key=A**********Z" := by
  decide

/-- Claim C4 (amended): masking `license_key=ABCD1234WXYZ` through the
`src/unnamed/part_004` variant yields the first/last-preserving
asterisk mask, while the `src/apps/core` variant replaces the whole
value with a three-asterisk literal; under both variants the original
secret value does not appear verbatim in the masked output. -/
theorem maskSensitiveData_redaction_by_variant :
    SecurityV2.maskSensitiveData "license_key=ABCD1234WXYZ" = "license_key=A**********Z" ∧
    Security.maskSensitiveData "license_key=ABCD1234WXYZ" = "license_key=***" ∧
    JsStr.containsSeq "ABCD1234WXYZ".data
      (SecurityV2.maskSensitiveData "license_key=ABCD1234WXYZ").data = false ∧
    JsStr.containsSeq "ABCD1234WXYZ".data
      (Security.maskSensitiveData "license_key=ABCD1234WXYZ").data = false := by
  decide

/-- Claim C5: the scanner reports a script containing `rm -rf /` as
invalid.  The code violates this: the remove pattern only matches the
separated flags (`-r`, `-f`, `--force`, `--recursive`), so the combined
flag `-rf` slips through and the scan of `rm -rf /` returns valid with
no issues at all, while the near-identical `rm -r /` is flagged
critical, and a medium-severity credential finding indeed leaves the
script valid with a non-empty issue list.  This theorem evaluates the
scanner at the failing input and at the two contrasting inputs. -/
theorem scanScript_rm_rf_slash_not_flagged :
    Security.scanScriptForVulnerabilities "rm -rf /" =
      ⟨true, []⟩ ∧
    (Security.scanScriptForVulnerabilities "rm -r /").valid = false ∧
    Security.scanScriptForVulnerabilities "echo aaaaaaaaaaaaaaaaaaaaaaaaaaaaaaaaaaaaaaaa" =
      ⟨true, [⟨Security.Severity.medium, "Possible API key or token in script"⟩]⟩ := by
  decide

/-- Claim C10: for a condition string that is neither a key of the
parameter map nor a comparison, evaluation returns false and never
throws.  The code violates this: the key-presence check uses the
JavaScript `in` operator, which walks the prototype chain, so the
condition `toString` on an empty parameter map reads the inherited
`Object.prototype.toString` function and evaluates to true (fail-open).
This theorem evaluates the condition evaluator at the failing input,
at an ordinary unknown key (false, as claimed), and shows the failing
key is not an own key of the map. -/
theorem evaluateCondition_inherited_property_fail_open :
    TemplateGen.evaluateCondition "toString" [] = true ∧
    TemplateGen.lookupParam [] "toString" = none ∧
    TemplateGen.evaluateCondition "garbage" [] = false := by
  decide

/-- Claim C6 counterexample: the claim states a non-zero install exit
(rollback and verification enabled) causes exactly one rollback
invocation and a failed result whose logs hold the install and rollback
outputs.  In the code, `withErrorHandling` defaults to three retries
and fires its rollback callback on every failed attempt, and the
rethrown error is caught by `installIntegration` with empty logs: four
rollback invocations and an empty logs array. -/
theorem installIntegration_install_failure_four_rollbacks_empty_logs :
    (Installation.installIntegration envFailingInstall {} demoEmptyPool).rollbackCalls = 4 ∧
    ¬((Installation.installIntegration envFailingInstall {} demoEmptyPool).rollbackCalls = 1) ∧
    (Installation.installIntegration envFailingInstall {} demoEmptyPool).outcome.logs = [] ∧
    ¬((Installation.installIntegration envFailingInstall {}
        demoEmptyPool).outcome.logs.length = 2) ∧
    (Installation.installIntegration envFailingInstall {} demoEmptyPool).outcome.success
      = false := by
  decide

/-- Claim C7 counterexample: the claim states a rollback failure is
never re-raised and the reported error is always the original
install/verification failure.  On the verification-failure path the
rollback call is awaited without a guard, so its rejection propagates:
the reported message carries the rollback error, not the verification
failure, and the logs are empty. -/
theorem installIntegration_rollback_error_masks_verification :
    (Installation.installIntegration envRollbackThrow {} demoEmptyPool).outcome.message =
      "Installation failed: rollback exploded" ∧
    ¬((Installation.installIntegration envRollbackThrow {} demoEmptyPool).outcome.message =
      "Verification failed: verify bad output") ∧
    (Installation.installIntegration envRollbackThrow {} demoEmptyPool).outcome.logs = []
      := by
  decide

/-- Claim C8 counterexample: the claim states a dry-run call acquires
no execution environment and leaves the pool unchanged.  In the
`src/unnamed/part_010` controller variant the container is acquired
before the dry-run check, so a dry-run call performs one acquisition
and mutates the pool. -/
theorem legacy_installIntegration_dry_run_acquires :
    (InstallationV2.installIntegration envDryRun { dryRun := true }
      demoEmptyPool).acquireCalls = 1 ∧
    ¬((InstallationV2.installIntegration envDryRun { dryRun := true }
      demoEmptyPool).state = demoEmptyPool) ∧
    (InstallationV2.installIntegration envDryRun { dryRun := true } demoEmptyPool).state =
      ⟨[⟨"c0", true, "ubuntu:22.04", 5, 5⟩], 5⟩ ∧
    (InstallationV2.installIntegration envDryRun { dryRun := true } demoEmptyPool).outcome =
      ⟨true, "Installation script generated successfully (dry run)",
        ["the rendered script"]⟩ := by
  decide

/-- Claim C8 (amended): for the current controller
(`src/apps/app/src/controllers/installation.ts`), a dry-run call whose
extraction and script generation succeed returns a success result whose
logs hold exactly the rendered install script, performs no acquisition,
and leaves the pool unchanged; the historical `src/unnamed/part_010`
variant instead acquires a container before the dry-run check (see the
counterexample). -/
theorem installIntegration_dry_run_frame
    (env : Installation.ControllerEnv) (opts : Installation.InstallationOptions)
    (st : DockerPool.PoolState) (integ s : String)
    (hdry : opts.dryRun = true) (hex : env.extract = Except.ok integ)
    (hgen : env.scriptGen = Except.ok s) :
    Installation.installIntegration env opts st =
      ⟨⟨true, "Installation script generated successfully (dry run)", [s]⟩, st, 0, 0⟩ := by
  unfold Installation.installIntegration
  rw [hex, hgen, hdry]
  simp

theorem installIntegration_dry_run_frame_witness :
    ({ dryRun := true } : Installation.InstallationOptions).dryRun = true ∧
    envDryRun.extract = Except.ok "redis" ∧
    envDryRun.scriptGen = Except.ok "the rendered script" ∧
    Installation.installIntegration envDryRun { dryRun := true } demoEmptyPool =
      ⟨⟨true, "Installation script generated successfully (dry run)",
        ["the rendered script"]⟩, demoEmptyPool, 0, 0⟩ :=
  ⟨rfl, rfl, rfl,
    installIntegration_dry_run_frame envDryRun { dryRun := true } demoEmptyPool
      "redis" "the rendered script" rfl rfl rfl⟩





/-- Claim C6 (amended): when the install script execution returns a
non-zero exit code on every attempt (rollback enabled, verification
enabled, not a dry run, acquisition succeeding), the install step is
attempted four times under the default three retries of
`withErrorHandling`, a rollback is initiated on each failed attempt
(four invocations), and the returned failed result carries the
last attempt's error message and an empty logs array. -/
theorem installIntegration_install_failure_behaviour
    (env : Installation.ControllerEnv) (opts : Installation.InstallationOptions)
    (st : DockerPool.PoolState) (integ s cid : String)
    (hdry : opts.dryRun = false) (hrb : opts.rollbackOnError = true)
    (hex : env.extract = Except.ok integ) (hgen : env.scriptGen = Except.ok s)
    (hacq : (DockerPool.getContainer st opts.baseImage env.acquire).1 = Except.ok cid)
    (hfail : ∀ n, (env.executor.installResult n).success = false) :
    (Installation.installIntegration env opts st).rollbackCalls = 4 ∧
    (Installation.installIntegration env opts st).outcome =
      ⟨false,
        "Installation failed: " ++ ("Installation failed with exit code " ++
          toString (env.executor.installResult 3).exitCode ++ ": " ++
          (env.executor.installResult 3).output), []⟩ := by
  have hloop : Installation.installLoop env.executor true 3 0 0 =
      (Except.error ("Installation failed with exit code " ++
        toString (env.executor.installResult 3).exitCode ++ ": " ++
        (env.executor.installResult 3).output), 4) := by
    simp [Installation.installLoop, hfail 0, hfail 1, hfail 2, hfail 3]
  have hexec : Installation.executeInstallation integ env.executor opts =
      (Except.error ("Installation failed with exit code " ++
        toString (env.executor.installResult 3).exitCode ++ ": " ++
        (env.executor.installResult 3).output), 4) := by
    unfold Installation.executeInstallation
    rw [hrb, hloop]
  unfold Installation.installIntegration
  rw [hex, hgen, hdry]
  simp only [Bool.false_eq_true, if_false]
  rcases hgc : DockerPool.getContainer st opts.baseImage env.acquire with ⟨res, st1⟩
  rw [hgc] at hacq
  simp only at hacq
  subst hacq
  simp [hexec]

theorem installIntegration_install_failure_behaviour_witness :
    (({} : Installation.InstallationOptions).dryRun = false ∧
     ({} : Installation.InstallationOptions).rollbackOnError = true ∧
     envFailingInstall.extract = Except.ok "redis" ∧
     envFailingInstall.scriptGen = Except.ok "echo install" ∧
     (DockerPool.getContainer demoEmptyPool
        ({} : Installation.InstallationOptions).baseImage
        envFailingInstall.acquire).1 = Except.ok "cnew" ∧
     (∀ n, (envFailingInstall.executor.installResult n).success = false)) ∧
    ((Installation.installIntegration envFailingInstall {} demoEmptyPool).rollbackCalls = 4 ∧
     (Installation.installIntegration envFailingInstall {} demoEmptyPool).outcome =
       ⟨false, "Installation failed: " ++ ("Installation failed with exit code " ++
         toString ((envFailingInstall.executor.installResult 3)).exitCode ++ ": " ++
         (envFailingInstall.executor.installResult 3).output), []⟩) :=
  ⟨⟨rfl, rfl, rfl, rfl, by decide, fun _ => rfl⟩,
   installIntegration_install_failure_behaviour envFailingInstall {} demoEmptyPool
     "redis" "echo install" "cnew" rfl rfl rfl rfl (by decide) (fun _ => rfl)⟩

theorem installLoop_rollback_field_irrelevant
    (inst : Nat → Installation.ExecutionResultM) (vs : Bool) (vo : String)
    (f g : Nat → Option String) (b : Bool) :
    ∀ k a rb : Nat,
      Installation.installLoop ⟨inst, vs, vo, f⟩ b k a rb =
        Installation.installLoop ⟨inst, vs, vo, g⟩ b k a rb := by
  intro k
  induction k with
  | zero => intro a rb; rfl
  | succ n ih =>
    intro a rb
    simp only [Installation.installLoop]
    split
    · rfl
    · exact ih (a + 1) _

/-- Claim C7 (amended): on the install-failure path (every attempt of
the install script fails), the entire observable result of
`installIntegration` — reported message, logs, pool state and counters
— is independent of the rollback executions' outcomes, because the
`onError` rollback promises are never awaited; the reported error is
the original install failure.  (On the verification-failure path this
independence does not hold: the awaited rollback rejection replaces the
verification failure, see the counterexample.) -/
theorem installIntegration_install_path_ignores_rollback_outcome
    (extract scriptGen : Except String String) (acq : DockerPool.AcquireInput)
    (inst : Nat → Installation.ExecutionResultM) (vs : Bool) (vo : String)
    (f g : Nat → Option String) (opts : Installation.InstallationOptions)
    (st : DockerPool.PoolState)
    (hfail : ∀ n, (inst n).success = false) :
    Installation.installIntegration ⟨extract, scriptGen, acq, ⟨inst, vs, vo, f⟩⟩ opts st =
      Installation.installIntegration ⟨extract, scriptGen, acq, ⟨inst, vs, vo, g⟩⟩ opts st := by
  have hform : ∃ m rb, Installation.installLoop ⟨inst, vs, vo, g⟩ opts.rollbackOnError 3 0 0 =
      (Except.error m, rb) := by
    cases hb : opts.rollbackOnError with
    | false =>
      exact ⟨"Installation failed with exit code " ++ toString (inst 3).exitCode ++ ": " ++
        (inst 3).output, 0,
        by simp [Installation.installLoop, hfail 0, hfail 1, hfail 2, hfail 3]⟩
    | true =>
      exact ⟨"Installation failed with exit code " ++ toString (inst 3).exitCode ++ ": " ++
        (inst 3).output, 4,
        by simp [Installation.installLoop, hfail 0, hfail 1, hfail 2, hfail 3]⟩
  obtain ⟨m, rb, hg⟩ := hform
  have hf : Installation.installLoop ⟨inst, vs, vo, f⟩ opts.rollbackOnError 3 0 0 =
      (Except.error m, rb) := by
    rw [installLoop_rollback_field_irrelevant inst vs vo f g opts.rollbackOnError 3 0 0, hg]
  have hexec : ∀ integ : String,
      Installation.executeInstallation integ ⟨inst, vs, vo, f⟩ opts =
        Installation.executeInstallation integ ⟨inst, vs, vo, g⟩ opts := by
    intro integ
    unfold Installation.executeInstallation
    rw [hf, hg]
  unfold Installation.installIntegration
  cases extract with
  | error m2 => rfl
  | ok integ =>
    cases scriptGen with
    | error m2 => rfl
    | ok script =>
      cases hd : opts.dryRun with
      | true => rfl
      | false =>
        simp only [Bool.false_eq_true, if_false]
        rcases DockerPool.getContainer st opts.baseImage acq with ⟨res, st1⟩
        cases res with
        | error m3 => rfl
        | ok cid => rw [hexec integ]

theorem installIntegration_install_path_ignores_rollback_outcome_witness :
    (∀ n, ((fun _ => ⟨false, 1, "install output"⟩ :
        Nat → Installation.ExecutionResultM) n).success = false) ∧
    Installation.installIntegration
        ⟨Except.ok "redis", Except.ok "echo install", ⟨true, "cnew", 5⟩,
          ⟨fun _ => ⟨false, 1, "install output"⟩, true, "verify output",
            fun _ => some "rollback boom"⟩⟩ {} demoEmptyPool =
      Installation.installIntegration
        ⟨Except.ok "redis", Except.ok "echo install", ⟨true, "cnew", 5⟩,
          ⟨fun _ => ⟨false, 1, "install output"⟩, true, "verify output",
            fun _ => none⟩⟩ {} demoEmptyPool :=
  ⟨fun _ => rfl,
   installIntegration_install_path_ignores_rollback_outcome
     (Except.ok "redis") (Except.ok "echo install") ⟨true, "cnew", 5⟩
     (fun _ => ⟨false, 1, "install output"⟩) true "verify output"
     (fun _ => some "rollback boom") (fun _ => none) {} demoEmptyPool (fun _ => rfl)⟩

theorem find?_mapSet (l : List (String × String)) (k v : String) :
    ∃ a, List.find? (fun p => p.1 == k) (TemplateGen.mapSet l k v) = some (a, v) := by
  induction l with
  | nil => exact ⟨k, by simp [TemplateGen.mapSet]⟩
  | cons hd t ih =>
    obtain ⟨a, b⟩ := hd
    by_cases h : a = k
    · subst h
      exact ⟨a, by simp [TemplateGen.mapSet]⟩
    · obtain ⟨c, hc⟩ := ih
      refine ⟨c, ?_⟩
      have hbeq : (a == k) = false := by simp [h]
      simp [TemplateGen.mapSet, hbeq, hc]

theorem generateScript_cache_hit (fs : List (String × String)) (tdir : String)
    (maxSize : Nat) (st : TemplateGen.GenState) (integ op : String)
    (params : TemplateGen.Params) (a v : String)
    (hfind : List.find? (fun p => p.1 == TemplateGen.getCacheKey integ op params) st.cache =
      some (a, v)) :
    TemplateGen.generateScript fs tdir maxSize st integ op params = Except.ok (v, st) := by
  simp only [TemplateGen.generateScript]
  rw [hfind]

theorem generateScript_ok_cases (fs : List (String × String)) (tdir : String)
    (maxSize : Nat) (st : TemplateGen.GenState) (integ op : String)
    (params : TemplateGen.Params) (s : String) (st2 : TemplateGen.GenState)
    (h : TemplateGen.generateScript fs tdir maxSize st integ op params = Except.ok (s, st2)) :
    (st2 = st ∧ ∃ a,
      List.find? (fun p => p.1 == TemplateGen.getCacheKey integ op params) st.cache =
        some (a, s)) ∨
    st2 = ⟨TemplateGen.cacheScript maxSize st.cache
      (TemplateGen.getCacheKey integ op params) s⟩ := by
  simp only [TemplateGen.generateScript] at h
  split at h
  · rename_i pr hfind
    simp only [Except.ok.injEq, Prod.mk.injEq] at h
    obtain ⟨hs, hst⟩ := h
    exact Or.inl ⟨hst.symm, pr.1, by rw [hfind, ← hs]⟩
  · rename_i hfind
    split at h
    · simp at h
    · rename_i pc hft
      simp only [Except.ok.injEq, Prod.mk.injEq] at h
      obtain ⟨hs, hst⟩ := h
      right
      rw [← hst, ← hs]

/-- Claim C9: the rendered-script cache key is computed from the
integration, the operation, and all parameters except the secret
`license_key`; consequently two calls whose parameter maps agree after
deleting `license_key` map to the same cache entry, and after a
successful first call the second call is a cache hit that returns
exactly the script text cached by the first call, leaving the cache
unchanged. -/
theorem generateScript_second_call_hits_cache_modulo_license_key
    (fs : List (String × String)) (tdir : String) (maxSize : Nat)
    (integ op : String) (p1 p2 : TemplateGen.Params) (st st2 : TemplateGen.GenState)
    (s : String)
    (hp : TemplateGen.deleteKey "license_key" p1 = TemplateGen.deleteKey "license_key" p2)
    (h1 : TemplateGen.generateScript fs tdir maxSize st integ op p1 = Except.ok (s, st2)) :
    TemplateGen.getCacheKey integ op p1 = TemplateGen.getCacheKey integ op p2 ∧
    TemplateGen.generateScript fs tdir maxSize st2 integ op p2 = Except.ok (s, st2) := by
  have hkey : TemplateGen.getCacheKey integ op p1 = TemplateGen.getCacheKey integ op p2 := by
    unfold TemplateGen.getCacheKey
    rw [hp]
  refine ⟨hkey, ?_⟩
  rcases generateScript_ok_cases fs tdir maxSize st integ op p1 s st2 h1 with
    ⟨hst, a, hfind⟩ | hst
  · subst hst
    exact generateScript_cache_hit fs tdir maxSize st2 integ op p2 a s (by rw [← hkey]; exact hfind)
  · obtain ⟨c, hc⟩ := find?_mapSet
      (if maxSize ≤ st.cache.length then
        match st.cache with
        | [] => []
        | (k0, v0) :: t => if k0 == "" then (k0, v0) :: t else t
      else st.cache)
      (TemplateGen.getCacheKey integ op p1) s
    refine generateScript_cache_hit fs tdir maxSize st2 integ op p2 c s ?_
    rw [← hkey, hst]
    exact hc

/-- A one-template filesystem for the cache witness. -/
def demoFs : List (String × String) :=
  [("templates/redis/install.sh.template", "echo \x7b\x7blicense_key\x7d\x7d")]

/-- First-call parameters: only the secret license key. -/
def demoParamsA : TemplateGen.Params :=
  [("license_key", TemplateGen.JSV.str "AAA")]

/-- Second-call parameters: same map except for the license key. -/
def demoParamsB : TemplateGen.Params :=
  [("license_key", TemplateGen.JSV.str "BBB")]

/-- The cache state after the first call. -/
def demoCacheAfter : TemplateGen.GenState :=
  ⟨[("redis:install:\x7b\x7d", "echo AAA")]⟩

theorem generateScript_second_call_hits_cache_modulo_license_key_witness :
    (TemplateGen.deleteKey "license_key" demoParamsA =
      TemplateGen.deleteKey "license_key" demoParamsB ∧
     TemplateGen.generateScript demoFs "templates" 100 ⟨[]⟩ "redis" "install" demoParamsA =
       Except.ok ("echo AAA", demoCacheAfter)) ∧
    (TemplateGen.getCacheKey "redis" "install" demoParamsA =
       TemplateGen.getCacheKey "redis" "install" demoParamsB ∧
     TemplateGen.generateScript demoFs "templates" 100 demoCacheAfter "redis" "install"
       demoParamsB = Except.ok ("echo AAA", demoCacheAfter)) :=
  ⟨⟨by decide, by decide⟩,
   generateScript_second_call_hits_cache_modulo_license_key demoFs "templates" 100
     "redis" "install" demoParamsA demoParamsB ⟨[]⟩ demoCacheAfter "echo AAA"
     (by decide) (by decide)⟩

end ChatApp
